import Mathlib

/-!
Verification of the availability resolver and the booking lifecycle of the
reserve_system single-page application, embedded from src/App.jsx.

The resolver (function fetchGcalSlots, src/App.jsx lines 158-218) takes the
calendar events for a day together with the cloud booking records and computes
one resolved slot per "bookable template" event.  The booking actions
(handleBookingSubmit, syncToGoogle and the inline deleteDoc call,
src/App.jsx lines 246-285 and 448) are embedded as explicit transformations
of a list of stored booking records.

Modelling decisions:
  * A JS timestamp value produced by new Date(ev.start.dateTime || ev.start.date)
    is embedded as an Option Int: some t is a valid instant (milliseconds),
    none is an Invalid Date (the result of parsing a malformed timestamp;
    every numeric comparison against it is false, as NaN comparisons are in JS).
  * Possibly-undefined string fields (ev.summary, ev.description, a booking
    document status field) are embedded as Option String; the JS truthiness
    guards of the source (ev.summary && ..., ev.description && ...) are kept,
    including the fact that the empty string is falsy.
  * JS Array.prototype.includes on the template array compares object
    references; in the embedding it is List.contains with structural equality,
    which agrees with reference semantics for the elements of the filtered
    array because the filtering predicate is structural.
  * The locale display strings (toLocaleTimeString) and the raw ISO copies
    (rawStart, rawEnd, slotTime) are presentational pass-throughs that no
    claim touches; the embedding keeps the parsed instants instead.
-/

/-- JS relational comparison between two date values: false whenever either
side is an Invalid Date (NaN), otherwise numeric comparison of the instants. -/
def jsLt : Option Int → Option Int → Bool
  | some a, some b => decide (a < b)
  | _, _ => false

/-- Pattern is an initial segment of the text (character lists). -/
def matchesAt : List Char → List Char → Bool
  | [], _ => true
  | _ :: _, [] => false
  | p :: ps, t :: ts => p == t && matchesAt ps ts

/-- Pattern occurs somewhere in the text (character lists). -/
def infixFrom (pat : List Char) : List Char → Bool
  | [] => matchesAt pat []
  | t :: ts => matchesAt pat (t :: ts) || infixFrom pat ts

/-- JS String.prototype.includes: the substring sub occurs in s. -/
def jsIncludes (s sub : String) : Bool :=
  infixFrom sub.toList s.toList

/-- GOOGLE_CONFIG.SLOT_KEYWORD (src/App.jsx line 52): the bookable marker. -/
def SLOT_KEYWORD : String := "予約可能"

/-- The confirmed marker checked on the event description
(src/App.jsx line 203). -/
def CONFIRMED_MARKER : String := "予約確定済み"

/-- A calendar event as the resolver consumes it: id, optional summary (title)
and description, and the two parsed timestamps. -/
structure CalEvent where
  id : String
  summary : Option String
  description : Option String
  start : Option Int
  endT : Option Int
deriving DecidableEq

/-- A cloud booking record as the resolver consumes it (the fields read at
src/App.jsx line 195).  The status field may be absent on a document. -/
structure Booking where
  id : String
  slotId : String
  status : Option String
deriving DecidableEq

/-- One element of the resolver output (src/App.jsx lines 197-204). -/
structure ResolvedSlot where
  id : String
  start : Option Int
  endT : Option Int
  isBooked : Bool
deriving DecidableEq

/-- Template classification (src/App.jsx lines 180-182):
ev.summary && ev.summary.includes(GOOGLE_CONFIG.SLOT_KEYWORD).
An absent or empty summary is falsy; the description is not consulted. -/
def isTemplateSlot (ev : CalEvent) : Bool :=
  match ev.summary with
  | none => false
  | some s => if s = "" then false else jsIncludes s SLOT_KEYWORD

/-- src/App.jsx lines 180-182: the events carrying the bookable marker. -/
def templateSlots (events : List CalEvent) : List CalEvent :=
  events.filter isTemplateSlot

/-- src/App.jsx line 183: allEvents.filter(ev => !templateSlots.includes(ev)). -/
def busyEvents (events : List CalEvent) : List CalEvent :=
  events.filter (fun ev => !((templateSlots events).contains ev))

/-- src/App.jsx lines 189-193: busyEvents.some(busy => sStart < bEnd && sEnd > bStart). -/
def hasConflict (busy : List CalEvent) (sStart sEnd : Option Int) : Bool :=
  busy.any fun b => jsLt sStart b.endT && jsLt b.start sEnd

/-- src/App.jsx line 195:
cloudBookings.some(cb => cb.slotId === ev.id && cb.status !== "deleted"). -/
def isCloudBooked (cloudBookings : List Booking) (evId : String) : Bool :=
  cloudBookings.any fun cb => decide (cb.slotId = evId) && decide (cb.status ≠ some "deleted")

/-- src/App.jsx line 203: ev.description && ev.description.includes("予約確定済み"),
with JS truthiness on the description. -/
def descriptionConfirmed (ev : CalEvent) : Bool :=
  match ev.description with
  | none => false
  | some d => if d = "" then false else jsIncludes d CONFIRMED_MARKER

/-- The body of the map at src/App.jsx lines 185-205: resolve one template
event against the busy events and the cloud bookings. -/
def resolveOne (busy : List CalEvent) (cloudBookings : List Booking) (ev : CalEvent) : ResolvedSlot :=
  { id := ev.id
    start := ev.start
    endT := ev.endT
    isBooked :=
      hasConflict busy ev.start ev.endT || isCloudBooked cloudBookings ev.id ||
        descriptionConfirmed ev }

/-- The resolver (src/App.jsx lines 179-206): partition the events and map
each template slot to its resolved slot. -/
def fetchGcalSlots (events : List CalEvent) (cloudBookings : List Booking) : List ResolvedSlot :=
  (templateSlots events).map (resolveOne (busyEvents events) cloudBookings)

/-- A booking document as written by handleBookingSubmit
(src/App.jsx lines 251-260). -/
structure StoredBooking where
  id : String
  name : String
  email : String
  note : String
  date : String
  slotId : String
  status : String
  createdAt : String
deriving DecidableEq

/-- handleBookingSubmit (src/App.jsx lines 246-265): addDoc appends a new
record with status "pending", the selected slot id and a creation timestamp. -/
def handleBookingSubmit (store : List StoredBooking)
    (newId name email note date : String) (selectedSlot : ResolvedSlot)
    (createdAt : String) : List StoredBooking :=
  store ++ [{ id := newId, name := name, email := email, note := note, date := date,
              slotId := selectedSlot.id, status := "pending", createdAt := createdAt }]

/-- syncToGoogle (src/App.jsx lines 267-285): updateDoc sets the status of the
addressed record to "synced". -/
def syncToGoogle (store : List StoredBooking) (bookingId : String) : List StoredBooking :=
  store.map fun b => if b.id = bookingId then { b with status := "synced" } else b

/-- The admin removal action (src/App.jsx line 448): deleteDoc removes the
addressed record from the store. -/
def deleteBooking (store : List StoredBooking) (bookingId : String) : List StoredBooking :=
  store.filter fun b => !(decide (b.id = bookingId))

/-- Every stored record has status "pending" or "synced". -/
def statusInLifecycle (store : List StoredBooking) : Prop :=
  ∀ b ∈ store, b.status = "pending" ∨ b.status = "synced"

/-! ### Bridge lemmas -/

/-- The JS date comparison is true exactly on two valid instants in order. -/
lemma jsLt_eq_true_iff (x y : Option Int) :
    jsLt x y = true ↔ ∃ a b : Int, x = some a ∧ y = some b ∧ a < b := by
  cases x with
  | none => simp [jsLt]
  | some a =>
    cases y with
    | none => simp [jsLt]
    | some b => simp [jsLt]

lemma empty_has_no_slot_keyword : jsIncludes "" SLOT_KEYWORD = false := by decide

lemma empty_has_no_confirmed_marker : jsIncludes "" CONFIRMED_MARKER = false := by decide

/-- Template classification holds exactly when the title is present and
contains the bookable marker. -/
lemma isTemplateSlot_iff_title (ev : CalEvent) :
    isTemplateSlot ev = true ↔
      ∃ s, ev.summary = some s ∧ jsIncludes s SLOT_KEYWORD = true := by
  unfold isTemplateSlot
  cases h : ev.summary with
  | none => simp
  | some s =>
    by_cases hs : s = ""
    · subst hs
      simp [empty_has_no_slot_keyword]
    · simp [hs]

/-- The confirmed-marker check holds exactly when the description is present
and contains the confirmed marker. -/
lemma descriptionConfirmed_iff (ev : CalEvent) :
    descriptionConfirmed ev = true ↔
      ∃ d, ev.description = some d ∧ jsIncludes d CONFIRMED_MARKER = true := by
  unfold descriptionConfirmed
  cases h : ev.description with
  | none => simp
  | some d =>
    by_cases hd : d = ""
    · subst hd
      simp [empty_has_no_confirmed_marker]
    · simp [hd]

/-- On an element of the event list, reference membership in the template
array coincides with the classification predicate. -/
lemma contains_templateSlots (events : List CalEvent) (a : CalEvent)
    (ha : a ∈ events) :
    (templateSlots events).contains a = isTemplateSlot a := by
  cases h : isTemplateSlot a with
  | true => exact List.elem_iff.mpr (List.mem_filter.mpr ⟨ha, h⟩)
  | false =>
    cases hc : (templateSlots events).contains a with
    | false => rfl
    | true =>
      have hmem : a ∈ templateSlots events := List.elem_iff.mp hc
      have := (List.mem_filter.mp hmem).2
      rw [h] at this
      exact absurd this (by decide)

/-- The busy list is the complement filter of the classification predicate. -/
lemma busyEvents_eq_filter (events : List CalEvent) :
    busyEvents events = events.filter (fun ev => !(isTemplateSlot ev)) := by
  unfold busyEvents
  exact List.filter_congr fun a ha => by rw [contains_templateSlots events a ha]

/-- Membership in the busy list. -/
lemma mem_busyEvents_iff (events : List CalEvent) (ev : CalEvent) :
    ev ∈ busyEvents events ↔ ev ∈ events ∧ isTemplateSlot ev = false := by
  rw [busyEvents_eq_filter, List.mem_filter]
  simp

/-- The conflict test holds exactly when some busy event strictly overlaps
the candidate interval, all four endpoints being valid instants. -/
lemma hasConflict_iff (busy : List CalEvent) (sStart sEnd : Option Int) :
    hasConflict busy sStart sEnd = true ↔
      ∃ b ∈ busy, ∃ ts te bs be : Int,
        sStart = some ts ∧ sEnd = some te ∧
        b.start = some bs ∧ b.endT = some be ∧ ts < be ∧ te > bs := by
  unfold hasConflict
  rw [List.any_eq_true]
  constructor
  · rintro ⟨b, hb, hpred⟩
    rw [Bool.and_eq_true, jsLt_eq_true_iff, jsLt_eq_true_iff] at hpred
    obtain ⟨⟨ts, be, hts, hbe, h1⟩, ⟨bs, te, hbs, hte, h2⟩⟩ := hpred
    exact ⟨b, hb, ts, te, bs, be, hts, hte, hbs, hbe, h1, h2⟩
  · rintro ⟨b, hb, ts, te, bs, be, hts, hte, hbs, hbe, h1, h2⟩
    refine ⟨b, hb, ?_⟩
    rw [Bool.and_eq_true, jsLt_eq_true_iff, jsLt_eq_true_iff]
    exact ⟨⟨ts, be, hts, hbe, h1⟩, ⟨bs, te, hbs, hte, h2⟩⟩

/-- The cloud-booking test holds exactly when some record references the id
with a status other than "deleted". -/
lemma isCloudBooked_iff (cloudBookings : List Booking) (evId : String) :
    isCloudBooked cloudBookings evId = true ↔
      ∃ r ∈ cloudBookings, r.slotId = evId ∧ r.status ≠ some "deleted" := by
  unfold isCloudBooked
  rw [List.any_eq_true]
  simp

/-- The booked flag of a resolved slot, unfolded. -/
lemma resolveOne_isBooked (busy : List CalEvent) (cloudBookings : List Booking)
    (ev : CalEvent) :
    (resolveOne busy cloudBookings ev).isBooked =
      (hasConflict busy ev.start ev.endT || isCloudBooked cloudBookings ev.id ||
        descriptionConfirmed ev) := rfl

/-! ### Claim theorems -/

/-- Claim C1: the resolver maps each template slot to a resolved slot, and the
booked flag holds for a template event exactly when some busy event strictly
overlaps it, or some booking record with status other than "deleted"
references its id, or its description carries the confirmed marker; when none
of these hold the slot is reported unbooked. -/
theorem resolved_isBooked_iff (events : List CalEvent) (bookings : List Booking)
    (ev : CalEvent) :
    fetchGcalSlots events bookings =
      (templateSlots events).map (resolveOne (busyEvents events) bookings) ∧
    ((resolveOne (busyEvents events) bookings ev).isBooked = true ↔
      (∃ b ∈ busyEvents events, ∃ ts te bs be : Int,
          ev.start = some ts ∧ ev.endT = some te ∧
          b.start = some bs ∧ b.endT = some be ∧ ts < be ∧ te > bs) ∨
      (∃ r ∈ bookings, r.slotId = ev.id ∧ r.status ≠ some "deleted") ∨
      (∃ d, ev.description = some d ∧ jsIncludes d CONFIRMED_MARKER = true)) := by
  refine ⟨rfl, ?_⟩
  rw [resolveOne_isBooked, Bool.or_eq_true, Bool.or_eq_true,
    hasConflict_iff, isCloudBooked_iff, descriptionConfirmed_iff]
  exact or_assoc

/-- Claim C2 counterexample: an event whose description (but not title)
contains the bookable marker is classified as a busy event, not as a
template slot. -/
theorem classification_ignores_description :
    jsIncludes "この枠は予約可能です" SLOT_KEYWORD = true ∧
    isTemplateSlot ⟨"e1", some "meeting", some "この枠は予約可能です", some 0, some 60⟩ = false ∧
    busyEvents [⟨"e1", some "meeting", some "この枠は予約可能です", some 0, some 60⟩] =
      [⟨"e1", some "meeting", some "この枠は予約可能です", some 0, some 60⟩] := by
  refine ⟨by decide, by decide, by decide⟩

/-- Claim C2 (amended): an event is classified as a template slot exactly when
its title is present and contains the bookable marker; the description is not
consulted, and every other event is a busy event. -/
theorem classification_by_title_only :
    (∀ ev : CalEvent, isTemplateSlot ev = true ↔
        ∃ s, ev.summary = some s ∧ jsIncludes s SLOT_KEYWORD = true) ∧
    (∀ (events : List CalEvent) (ev : CalEvent),
        ev ∈ busyEvents events ↔ ev ∈ events ∧ isTemplateSlot ev = false) :=
  ⟨isTemplateSlot_iff_title, mem_busyEvents_iff⟩

/-- Claim C3: for a template slot and a busy event whose four endpoints parse
to instants, the conflict test reports a conflict exactly under the strict
two-sided overlap condition; touching endpoints never conflict. -/
theorem conflict_iff_strict_overlap (t b : CalEvent) (ts te bs be : Int)
    (ht1 : t.start = some ts) (ht2 : t.endT = some te)
    (hb1 : b.start = some bs) (hb2 : b.endT = some be) :
    hasConflict [b] t.start t.endT = true ↔ (ts < be ∧ te > bs) := by
  rw [ht1, ht2]
  unfold hasConflict
  simp [jsLt, hb1, hb2, and_comm]

/-- Claim C3 witness: back-to-back events (busy starts exactly when the slot
ends) do not conflict. -/
theorem conflict_iff_strict_overlap_witness :
    hasConflict [⟨"B", some "meeting", none, some 60, some 120⟩]
        (CalEvent.start ⟨"A", some "予約可能", none, some 0, some 60⟩)
        (CalEvent.endT ⟨"A", some "予約可能", none, some 0, some 60⟩) = true ↔
      ((0 : Int) < 120 ∧ (60 : Int) > 60) :=
  conflict_iff_strict_overlap ⟨"A", some "予約可能", none, some 0, some 60⟩
    ⟨"B", some "meeting", none, some 60, some 120⟩ 0 60 60 120 rfl rfl rfl rfl

/-- Claim C4 counterexample: a zero-width template slot lying strictly inside
a busy interval is reported as conflicting, hence booked, under the strict
inequality rule. -/
theorem zero_width_slot_conflicts :
    hasConflict [⟨"B", some "meeting", none, some 0, some 10⟩] (some 5) (some 5) = true ∧
    fetchGcalSlots
        [⟨"A", some "予約可能", none, some 5, some 5⟩,
         ⟨"B", some "meeting", none, some 0, some 10⟩] [] =
      [⟨"A", some 5, some 5, true⟩] := by
  refine ⟨by decide, by decide⟩

/-- Claim C4 (amended): a zero-width template slot conflicts with a busy
event exactly when its instant lies strictly inside the busy interval; in
particular it never conflicts with a touching or disjoint busy event, but a
busy interval strictly containing the instant does mark it booked. -/
theorem zero_width_conflict_iff_inside (t b : CalEvent) (p bs be : Int)
    (ht1 : t.start = some p) (ht2 : t.endT = some p)
    (hb1 : b.start = some bs) (hb2 : b.endT = some be) :
    hasConflict [b] t.start t.endT = true ↔ (bs < p ∧ p < be) := by
  rw [ht1, ht2]
  unfold hasConflict
  simp [jsLt, hb1, hb2, and_comm]

/-- Claim C4 amended witness: a zero-width slot touching the start of a busy
interval does not conflict. -/
theorem zero_width_conflict_iff_inside_witness :
    hasConflict [⟨"B", some "meeting", none, some 5, some 10⟩]
        (CalEvent.start ⟨"A", some "予約可能", none, some 5, some 5⟩)
        (CalEvent.endT ⟨"A", some "予約可能", none, some 5, some 5⟩) = true ↔
      ((5 : Int) < 5 ∧ (5 : Int) < 10) :=
  zero_width_conflict_iff_inside ⟨"A", some "予約可能", none, some 5, some 5⟩
    ⟨"B", some "meeting", none, some 5, some 10⟩ 5 5 10 rfl rfl rfl rfl

/-- Claim C5 counterexample: on an input containing a busy event whose start
does not parse to an instant, the resolver produces an ordinary result and,
in particular, exactly the result obtained by dropping the malformed event —
a silent default, with no data-validation error naming the event id. -/
theorem malformed_event_silently_ignored :
    (⟨"bad", some "meeting", none, none, some 100⟩ : CalEvent).start = none ∧
    fetchGcalSlots
        [⟨"A", some "予約可能", none, some 0, some 60⟩,
         ⟨"bad", some "meeting", none, none, some 100⟩] [] =
      [⟨"A", some 0, some 60, false⟩] ∧
    fetchGcalSlots
        [⟨"A", some "予約可能", none, some 0, some 60⟩,
         ⟨"bad", some "meeting", none, none, some 100⟩] [] =
      fetchGcalSlots [⟨"A", some "予約可能", none, some 0, some 60⟩] [] := by
  refine ⟨rfl, by decide, by decide⟩

/-- Claim C5 (amended): the resolver is total and never surfaces an error:
a busy event with a malformed start or end timestamp parses to an invalid
instant whose comparisons are all false, so appending it to the input leaves
the resolver output unchanged — the malformed event is skipped silently
rather than reported. -/
theorem malformed_busy_never_conflicts (events : List CalEvent)
    (bookings : List Booking) (b : CalEvent)
    (hb : isTemplateSlot b = false) (hmal : b.start = none ∨ b.endT = none) :
    fetchGcalSlots (events ++ [b]) bookings = fetchGcalSlots events bookings := by
  have htmpl : templateSlots (events ++ [b]) = templateSlots events := by
    unfold templateSlots
    rw [List.filter_append]
    simp [hb]
  have hbusy : busyEvents (events ++ [b]) = busyEvents events ++ [b] := by
    rw [busyEvents_eq_filter (events ++ [b]), busyEvents_eq_filter events,
      List.filter_append]
    simp [hb]
  have hone : ∀ ev, resolveOne (busyEvents events ++ [b]) bookings ev =
      resolveOne (busyEvents events) bookings ev := by
    intro ev
    unfold resolveOne
    have hconf : hasConflict (busyEvents events ++ [b]) ev.start ev.endT =
        hasConflict (busyEvents events) ev.start ev.endT := by
      unfold hasConflict
      rw [List.any_append]
      have : (jsLt ev.start b.endT && jsLt b.start ev.endT) = false := by
        rcases hmal with h | h
        · have : jsLt b.start ev.endT = false := by rw [h]; rfl
          rw [this, Bool.and_false]
        · have : jsLt ev.start b.endT = false := by
            rw [h]
            cases ev.start <;> rfl
          rw [this, Bool.false_and]
      simp [this]
    rw [hconf]
  have hfun : resolveOne (busyEvents events ++ [b]) bookings =
      resolveOne (busyEvents events) bookings := funext hone
  unfold fetchGcalSlots
  rw [htmpl, hbusy, hfun]

/-- Claim C5 amended witness: appending a busy event with an unparseable
start timestamp to a singleton template input changes nothing. -/
theorem malformed_busy_never_conflicts_witness :
    fetchGcalSlots
        ([⟨"A", some "予約可能", none, some 0, some 60⟩] ++
          [⟨"bad2", some "meeting", none, none, some 100⟩]) [] =
      fetchGcalSlots [⟨"A", some "予約可能", none, some 0, some 60⟩] [] :=
  malformed_busy_never_conflicts [⟨"A", some "予約可能", none, some 0, some 60⟩] []
    ⟨"bad2", some "meeting", none, none, some 100⟩ (by decide) (Or.inl rfl)

/-- Claim C6: a booking record with status "pending" or "synced" referencing
a slot marks it booked; when every record referencing the slot has status
"deleted" and no other booking signal applies, the slot is reported unbooked. -/
theorem cloud_booking_status_rules :
    (∀ (events : List CalEvent) (bookings : List Booking) (ev : CalEvent) (r : Booking),
        r ∈ bookings → r.slotId = ev.id →
        (r.status = some "pending" ∨ r.status = some "synced") →
        (resolveOne (busyEvents events) bookings ev).isBooked = true) ∧
    (∀ (events : List CalEvent) (bookings : List Booking) (ev : CalEvent),
        (∀ r ∈ bookings, r.slotId = ev.id → r.status = some "deleted") →
        hasConflict (busyEvents events) ev.start ev.endT = false →
        descriptionConfirmed ev = false →
        (resolveOne (busyEvents events) bookings ev).isBooked = false) := by
  constructor
  · intro events bookings ev r hr hslot hstat
    rw [resolveOne_isBooked]
    have hcb : isCloudBooked bookings ev.id = true := by
      rw [isCloudBooked_iff]
      refine ⟨r, hr, hslot, ?_⟩
      rcases hstat with h | h <;> simp [h]
    rw [hcb]
    simp
  · intro events bookings ev hall hconf hdesc
    rw [resolveOne_isBooked, hconf, hdesc]
    have hcb : isCloudBooked bookings ev.id = false := by
      cases hc : isCloudBooked bookings ev.id with
      | false => rfl
      | true =>
        rw [isCloudBooked_iff] at hc
        obtain ⟨r, hr, hsl, hst⟩ := hc
        exact absurd (hall r hr hsl) hst
    rw [hcb]
    rfl

/-- Claim C6 witness: a "pending" record books the slot, and a single
"deleted" record leaves it unbooked. -/
theorem cloud_booking_status_rules_witness :
    (resolveOne (busyEvents []) [⟨"r1", "A", some "pending"⟩]
        ⟨"A", some "予約可能", none, some 0, some 60⟩).isBooked = true ∧
    (resolveOne (busyEvents []) [⟨"r2", "A", some "deleted"⟩]
        ⟨"A", some "予約可能", none, some 0, some 60⟩).isBooked = false :=
  ⟨cloud_booking_status_rules.1 [] _ _ ⟨"r1", "A", some "pending"⟩ (by decide)
      rfl (Or.inl rfl),
   cloud_booking_status_rules.2 [] _ _ (by decide) rfl rfl⟩

/-- Claim C7: a booking submission appends a record with status "pending",
the selected slot id and the creation timestamp, and each system action
(submission, administrative sync, removal) keeps every stored status inside
the set of "pending" and "synced". -/
theorem booking_record_lifecycle :
    (∀ (store : List StoredBooking) (newId name email note date : String)
        (slot : ResolvedSlot) (createdAt : String),
        handleBookingSubmit store newId name email note date slot createdAt =
          store ++ [{ id := newId, name := name, email := email, note := note,
                      date := date, slotId := slot.id, status := "pending",
                      createdAt := createdAt }]) ∧
    (∀ (store : List StoredBooking) (newId name email note date : String)
        (slot : ResolvedSlot) (createdAt : String), statusInLifecycle store →
        statusInLifecycle
          (handleBookingSubmit store newId name email note date slot createdAt)) ∧
    (∀ (store : List StoredBooking) (bookingId : String), statusInLifecycle store →
        statusInLifecycle (syncToGoogle store bookingId)) ∧
    (∀ (store : List StoredBooking) (bookingId : String), statusInLifecycle store →
        statusInLifecycle (deleteBooking store bookingId)) := by
  refine ⟨fun _ _ _ _ _ _ _ _ => rfl, ?_, ?_, ?_⟩
  · intro store newId name email note date slot createdAt h b hb
    unfold handleBookingSubmit at hb
    rcases List.mem_append.mp hb with h1 | h1
    · exact h b h1
    · have := List.mem_singleton.mp h1
      subst this
      exact Or.inl rfl
  · intro store bookingId h b hb
    unfold syncToGoogle at hb
    rcases List.mem_map.mp hb with ⟨a, ha, hfa⟩
    by_cases hid : a.id = bookingId
    · rw [if_pos hid] at hfa
      subst hfa
      exact Or.inr rfl
    · rw [if_neg hid] at hfa
      subst hfa
      exact h a ha
  · intro store bookingId h b hb
    unfold deleteBooking at hb
    exact h b (List.mem_filter.mp hb).1

/-- Claim C7 witness: a concrete submission into the empty store, and a
concrete sync of the resulting pending record, both stay in the lifecycle. -/
theorem booking_record_lifecycle_witness :
    statusInLifecycle (handleBookingSubmit [] "b1" "Taro" "taro@example.com" ""
      "d1" ⟨"A", some 0, some 60, false⟩ "t0") ∧
    statusInLifecycle (syncToGoogle
      [⟨"b1", "Taro", "taro@example.com", "", "d1", "A", "pending", "t0"⟩] "b1") :=
  ⟨booking_record_lifecycle.2.1 [] "b1" "Taro" "taro@example.com" "" "d1"
      ⟨"A", some 0, some 60, false⟩ "t0" (by unfold statusInLifecycle; decide),
   booking_record_lifecycle.2.2.1 _ "b1" (by unfold statusInLifecycle; decide)⟩

/-- Claim C8: the resolution computation is a pure function of its inputs:
identical event and booking lists yield identical output lists. -/
theorem resolver_deterministic (e1 e2 : List CalEvent) (b1 b2 : List Booking)
    (he : e1 = e2) (hb : b1 = b2) :
    fetchGcalSlots e1 b1 = fetchGcalSlots e2 b2 := by
  rw [he, hb]

/-- Claim C8 witness: two invocations on one concrete input agree. -/
theorem resolver_deterministic_witness :
    fetchGcalSlots [⟨"A", some "予約可能", none, some 0, some 60⟩] [] =
      fetchGcalSlots [⟨"A", some "予約可能", none, some 0, some 60⟩] [] :=
  resolver_deterministic _ _ _ _ rfl rfl

/-- Claim C9: any booking record referencing the slot whose status differs
from the exact string "deleted" — including statuses outside the lifecycle
set and an absent status field — marks the slot booked. -/
theorem nondeleted_status_marks_booked (events : List CalEvent)
    (bookings : List Booking) (ev : CalEvent) (r : Booking)
    (hr : r ∈ bookings) (hslot : r.slotId = ev.id)
    (hstat : r.status ≠ some "deleted") :
    (resolveOne (busyEvents events) bookings ev).isBooked = true := by
  rw [resolveOne_isBooked]
  have hcb : isCloudBooked bookings ev.id = true :=
    (isCloudBooked_iff bookings ev.id).mpr ⟨r, hr, hslot, hstat⟩
  rw [hcb]
  simp

/-- Claim C9 witness: a record with an absent status field books the slot. -/
theorem nondeleted_status_marks_booked_witness :
    (resolveOne (busyEvents []) [⟨"r9", "A", none⟩]
        ⟨"A", some "予約可能", none, some 0, some 60⟩).isBooked = true :=
  nondeleted_status_marks_booked [] _ _ ⟨"r9", "A", none⟩ (by decide) rfl (by decide)

/-- Claim C10: the resolver is total on events with absent optional fields:
an event with no title is classified as a busy event, and for a slot with no
description the booked flag reduces to the conflict and cloud-booking signals
alone (the confirmed-marker check contributes nothing). -/
theorem missing_fields_safe :
    (∀ ev : CalEvent, ev.summary = none → isTemplateSlot ev = false) ∧
    (∀ (events : List CalEvent) (ev : CalEvent), ev ∈ events → ev.summary = none →
        ev ∈ busyEvents events) ∧
    (∀ (busy : List CalEvent) (cloud : List Booking) (ev : CalEvent),
        ev.description = none →
        (resolveOne busy cloud ev).isBooked =
          (hasConflict busy ev.start ev.endT || isCloudBooked cloud ev.id)) := by
  refine ⟨?_, ?_, ?_⟩
  · intro ev h
    unfold isTemplateSlot
    rw [h]
  · intro events ev hmem h
    refine (mem_busyEvents_iff events ev).mpr ⟨hmem, ?_⟩
    unfold isTemplateSlot
    rw [h]
  · intro busy cloud ev h
    rw [resolveOne_isBooked]
    have hd : descriptionConfirmed ev = false := by
      unfold descriptionConfirmed
      rw [h]
    rw [hd, Bool.or_false]

/-- Claim C10 witness: a concrete title-less event sits among the busy
events, and a concrete description-less slot gets its booked flag from the
other two signals only. -/
theorem missing_fields_safe_witness :
    isTemplateSlot ⟨"n1", none, none, some 0, some 60⟩ = false ∧
    (⟨"n1", none, none, some 0, some 60⟩ : CalEvent) ∈
      busyEvents [⟨"n1", none, none, some 0, some 60⟩] ∧
    (resolveOne [] [] ⟨"A", some "予約可能", none, some 0, some 60⟩).isBooked =
      (hasConflict [] (some 0) (some 60) || isCloudBooked [] "A") :=
  ⟨missing_fields_safe.1 _ rfl,
   missing_fields_safe.2.1 _ _ (by decide) rfl,
   missing_fields_safe.2.2 [] [] _ rfl⟩
